import Mathlib

/-!
Shallow embedding of the SPI slave transport engine of the repository
(src/app/lib/Communication/SPISlaveHandler.{h,cpp}, constants from
src/include/Config.h with DEVELOPMENT defined).

Modelling conventions:
* Byte buffers are `List Nat` (each element a byte value; casts to
  uint8_t are taken modulo 256 exactly where the C++ code performs a
  narrowing conversion).
* `unsigned long` / `uint32_t` arithmetic is Nat arithmetic taken
  modulo 4294967296 (2^32) exactly where the C++ expression wraps.
* Environment nondeterminism is passed in as explicit oracle
  parameters: the current `millis()` value, the result of
  `heap_caps_malloc` (`mallocOk`), the results of the hardware driver
  calls `spi_slave_initialize` (`hwInitOk`) and `spi_slave_queue_trans`
  (`queueOk`), and whether the queue mutex is free at the moment of the
  call (`semAvail`).  Within a single invocation of the completion
  callback `onSpiTransaction` both semaphore acquisitions
  (`xSemaphoreTake` inside `pendingReceiveCount` and
  `xSemaphoreTakeFromISR` around the queue push) see the same mutex
  state, because the ISR is not preemptible by task code and itself
  releases whatever it takes; hence one `semAvail` Boolean per event.
* Heap pointers for pool buffers are modelled by their pool index
  (`BufRef.pool i`); an ad-hoc fallback allocation made by `getBuffer`
  when the pool is exhausted is `BufRef.fresh` (its heap cell lives
  outside the modelled state and is freed by `returnBuffer`).
-/

namespace SPISlave

/-- 2^32, the wrap-around modulus of `unsigned long`/`uint32_t` on ESP32
(written as a numeral so that `omega` can work with it). -/
def U32 : Nat := 4294967296

/-- `#define SPI_BUFFER_POOL_SIZE 6` (SPISlaveHandler.h). -/
def SPI_BUFFER_POOL_SIZE : Nat := 6

/-- `#define SPI_BUFFER_SIZE 8096` (Config.h, DEVELOPMENT branch). -/
def SPI_BUFFER_SIZE : Nat := 8096

/-- `#define SPI_SCK_PIN (int)12` (Config.h, DEVELOPMENT branch). -/
def SPI_SCK_PIN : Int := 12

/-- `#define SPI_MISO_PIN (int)13` (Config.h, DEVELOPMENT branch). -/
def SPI_MISO_PIN : Int := 13

/-- `#define SPI_MOSI_PIN (int)15` (Config.h, DEVELOPMENT branch). -/
def SPI_MOSI_PIN : Int := 15

/-- `#define SPI_ESP32_SS (int)14` (Config.h, DEVELOPMENT branch). -/
def SPI_ESP32_SS : Int := 14

/-- Narrowing conversion of a C++ `int` value to `uint8_t`
(two's-complement wrap, i.e. the value modulo 256, non-negative). -/
def toUInt8 (v : Int) : Nat := (v % 256).toNat

/-- `struct SPIBuffer { uint8_t* data; bool inUse; }` — one entry of the
DMA buffer pool.  `data = none` models a null pointer (the constructor's
`heap_caps_malloc` failed for this slot). -/
structure SPIBuffer where
  data : Option (List Nat)
  inUse : Bool
  deriving DecidableEq, Repr

/-- `struct SPIDataPacket` — an owned copy of received bytes plus length
and processed flag (SPISlaveHandler.h). -/
structure SPIDataPacket where
  data : List Nat
  length : Nat
  processed : Bool
  deriving DecidableEq, Repr

/-- Identity of a buffer handed out by `getBuffer`: either the pool
entry with the given index, or a fallback heap allocation made when the
pool was exhausted. -/
inductive BufRef where
  | pool (i : Nat)
  | fresh
  deriving DecidableEq, Repr

/-- The state of the `SPISlaveHandler` singleton, together with the
externally observable state of the hardware driver (`driverStarted`
reflects whether `spi_slave_initialize` has been called without a
matching `spi_slave_free`; `hwQueuedCount` counts successfully submitted
transfer descriptors). -/
structure SPIState where
  txBuffer : List Nat
  rxBuffer : List Nat
  bufferSize : Nat
  txLength : Nat
  dataReady : Bool
  needsNewTransaction : Bool
  lastTransactionTime : Nat
  transactionTimeout : Nat
  transactionActive : Bool
  transactionCount : Nat
  recoveryAttempts : Nat
  receiveQueue : List SPIDataPacket
  bufferPool : List SPIBuffer
  receiveCallback : Bool
  initialized : Bool
  sckPin : Nat
  misoPin : Nat
  mosiPin : Nat
  csPin : Nat
  mode : Nat
  driverStarted : Bool
  hwQueuedCount : Nat
  deriving DecidableEq, Repr

/-- The buffer pool built by the constructor: `SPI_BUFFER_POOL_SIZE`
slots, each allocated (and zeroed) when its `heap_caps_malloc`
succeeds, with `inUse = false`. -/
def mkPool (allocOk : Nat → Bool) : List SPIBuffer :=
  (List.range SPI_BUFFER_POOL_SIZE).map fun i =>
    if allocOk i then { data := some (List.replicate SPI_BUFFER_SIZE 0), inUse := false }
    else { data := none, inUse := false }

/-- The state established by the `SPISlaveHandler` constructor
(member-initializer list plus constructor body): zeroed persistent
buffers, 3000 ms transaction timeout, empty queue, freshly allocated
pool, nothing initialized. -/
def initialState (allocOk : Nat → Bool) : SPIState where
  txBuffer := List.replicate SPI_BUFFER_SIZE 0
  rxBuffer := List.replicate SPI_BUFFER_SIZE 0
  bufferSize := SPI_BUFFER_SIZE
  txLength := 0
  dataReady := false
  needsNewTransaction := false
  lastTransactionTime := 0
  transactionTimeout := 3000
  transactionActive := false
  transactionCount := 0
  recoveryAttempts := 0
  receiveQueue := []
  bufferPool := mkPool allocOk
  receiveCallback := false
  initialized := false
  sckPin := 0
  misoPin := 0
  mosiPin := 0
  csPin := 0
  mode := 0
  driverStarted := false
  hwQueuedCount := 0

/-- `memcpy(dst, src, n)` on list-modelled byte buffers: the first `n`
bytes of `src` overwrite the first `n` bytes of `dst`, the rest of
`dst` is untouched. -/
def memcpyInto (dst src : List Nat) (n : Nat) : List Nat :=
  src.take n ++ dst.drop n

/-- Apply `f` to the `i`-th element of a pool list, leaving every other
entry unchanged (used to model a write through the `i`-th pool
pointer). -/
def poolModify (f : SPIBuffer → SPIBuffer) : Nat → List SPIBuffer → List SPIBuffer
  | _, [] => []
  | 0, buf :: rest => f buf :: rest
  | n + 1, buf :: rest => buf :: poolModify f n rest

/-- The scan loop of `SPISlaveHandler::getBuffer`: index of the first
pool entry with `!inUse` and a non-null `data` pointer. -/
def findFreeBuffer : List SPIBuffer → Option Nat
  | [] => none
  | buf :: rest =>
    if !buf.inUse && buf.data.isSome then some 0
    else (findFreeBuffer rest).map (· + 1)

/-- `SPISlaveHandler::getBuffer` (SPISlaveHandler.cpp:108-120): return
the first free pool buffer, marking it in-use; if none is free,
fall back to `heap_caps_malloc` (whose success is the oracle
`mallocOk`), returning null (`none`) only when that allocation fails. -/
def getBuffer (s : SPIState) (mallocOk : Bool) : Option BufRef × SPIState :=
  match findFreeBuffer s.bufferPool with
  | some i =>
    (some (BufRef.pool i),
      { s with bufferPool := poolModify (fun buf => { buf with inUse := true }) i s.bufferPool })
  | none => if mallocOk then (some BufRef.fresh, s) else (none, s)

/-- `SPISlaveHandler::returnBuffer` (SPISlaveHandler.cpp:123-135): if the
pointer belongs to the pool, mark the entry free and zero its bytes
(`memset(buffer, 0, _bufferSize)`); otherwise `heap_caps_free` it (no
modelled state changes). -/
def returnBuffer (s : SPIState) (b : BufRef) : SPIState :=
  match b with
  | BufRef.pool i =>
    let clear : SPIBuffer → SPIBuffer := fun buf =>
      { buf with inUse := false,
                 data := buf.data.map fun _ => List.replicate s.bufferSize 0 }
    { s with bufferPool := poolModify clear i s.bufferPool }
  | BufRef.fresh => s

/-- The ISR's `memcpy(packetBuffer, trans->rx_buffer, rxBytes)`: write
the first `n` received bytes through the buffer reference (a write to a
fallback heap buffer lives outside the modelled state). -/
def bufWrite (s : SPIState) (b : BufRef) (n : Nat) : SPIState :=
  match b with
  | BufRef.pool i =>
    let write : SPIBuffer → SPIBuffer := fun buf =>
      { buf with data := buf.data.map fun bs => memcpyInto bs s.rxBuffer n }
    { s with bufferPool := poolModify write i s.bufferPool }
  | BufRef.fresh => s

/-- `SPISlaveHandler::pendingReceiveCount` (SPISlaveHandler.cpp:377-387):
the queue length when the mutex can be taken within its 100 ms bound,
and 0 when it cannot. -/
def pendingReceiveCount (s : SPIState) (semAvail : Bool) : Nat :=
  if semAvail then s.receiveQueue.length else 0

/-- `_maxQueueSize = 10` (SPISlaveHandler.h). -/
def maxQueueSize : Nat := 10

/-- `SPISlaveHandler::getBufferStatus` (SPISlaveHandler.cpp:368-371):
`(pendingReceiveCount() * 100) / _maxQueueSize`, narrowed to the
`uint8_t` return type. -/
def getBufferStatus (s : SPIState) (semAvail : Bool) : Nat :=
  (pendingReceiveCount s semAvail * 100) / maxQueueSize % 256

/-- `SPISlaveHandler::prepareDataToSend` (SPISlaveHandler.cpp:260-286):
reject a null pointer, zero length, over-capacity length, or an
uninitialized handler; otherwise zero the persistent tx buffer, copy
`len` bytes in, and mark data ready. -/
def prepareDataToSend (s : SPIState) (txData : Option (List Nat)) (len : Nat) :
    Bool × SPIState :=
  if !s.initialized then (false, s)
  else
    match txData with
    | none => (false, s)
    | some d =>
      if len = 0 || decide (s.bufferSize < len) then (false, s)
      else
        (true,
          { s with txBuffer := memcpyInto (List.replicate s.bufferSize 0) d len,
                   txLength := len,
                   dataReady := true })

/-- `SPISlaveHandler::onSpiTransaction` (SPISlaveHandler.cpp:138-188),
the post-transaction completion callback running in interrupt context.
The hardware has already written the received bytes into the persistent
rx buffer (`s.rxBuffer`); `transLenBits` is `trans->trans_len`.  The
`memcpy` into the staging buffer and the `SPIDataPacket` constructor's
own copy together make the packet body the first `rxBytes` bytes of the
rx buffer. -/
def onSpiTransaction (s : SPIState) (transLenBits : Nat) (semAvail mallocOk : Bool)
    (now : Nat) : SPIState :=
  let s0 := { s with lastTransactionTime := now % U32,
                     transactionActive := false,
                     transactionCount := (s.transactionCount + 1) % U32 }
  let rxBytes := transLenBits / 8
  if rxBytes = 0 then s0
  else
    let queueFull := decide (maxQueueSize ≤ pendingReceiveCount s0 semAvail)
    let s1 :=
      if !queueFull then
        match getBuffer s0 mallocOk with
        | (none, sa) => sa
        | (some bref, sa) =>
          let sb := bufWrite sa bref rxBytes
          let packet : SPIDataPacket :=
            { data := sb.rxBuffer.take rxBytes, length := rxBytes, processed := false }
          let sc := returnBuffer sb bref
          if semAvail then { sc with receiveQueue := sc.receiveQueue ++ [packet] } else sc
      else s0
    { s1 with rxBuffer := List.replicate s1.bufferSize 0,
              dataReady := false,
              needsNewTransaction := true }

/-- The `for (int i = 0; i < 3; i++)` loop of `init` submitting the
initial transfer descriptors: submits `remaining` descriptors starting
at loop index `i`, stopping with failure at the first
`spi_slave_queue_trans` error (oracle `queueOk`). -/
def queueLoop (queueOk : Nat → Bool) : Nat → Nat → SPIState → Bool × SPIState
  | _, 0, s => (true, s)
  | i, r + 1, s =>
    if queueOk i then
      queueLoop queueOk (i + 1) r { s with hwQueuedCount := s.hwQueuedCount + 1 }
    else (false, s)

/-- `SPISlaveHandler::init` (SPISlaveHandler.cpp:198-258): no-op when
already initialized; otherwise store mode and pins (defaults for `-1`
arguments), start the SPI slave driver (oracle `hwInitOk`), submit 3
initial transfer descriptors, and mark the handler initialized only
when everything succeeded. -/
def init (s : SPIState) (sckPin misoPin mosiPin csPin : Int) (mode : Nat)
    (hwInitOk : Bool) (queueOk : Nat → Bool) : Bool × SPIState :=
  if s.initialized then (true, s)
  else
    let s1 := { s with mode := mode % 256,
                       sckPin := toUInt8 (if sckPin ≠ -1 then sckPin else SPI_SCK_PIN),
                       misoPin := toUInt8 (if misoPin ≠ -1 then misoPin else SPI_MISO_PIN),
                       mosiPin := toUInt8 (if mosiPin ≠ -1 then mosiPin else SPI_MOSI_PIN),
                       csPin := toUInt8 (if csPin ≠ -1 then csPin else SPI_ESP32_SS) }
    if !hwInitOk then (false, s1)
    else
      let s2 := { s1 with driverStarted := true }
      match queueLoop queueOk 0 3 s2 with
      | (false, s3) => (false, s3)
      | (true, s3) => (true, { s3 with initialized := true })

/-- `SPISlaveHandler::handleReceivedData` (SPISlaveHandler.cpp:319-366):
with a registered external callback the engine state is untouched here
(the callback runs outside the handler); otherwise a leading `PING`
(0x01) byte auto-stages the `{PONG, 0x00, getBufferStatus(), 0x00}`
reply, and every other first byte is logged only. -/
def handleReceivedData (s : SPIState) (data : List Nat) (len : Nat) (semAvail : Bool) :
    SPIState :=
  if s.receiveCallback then s
  else if 0 < len then
    match data with
    | [] => s
    | b0 :: _ =>
      if b0 < 0xFF then
        if b0 = 0x01 then
          (prepareDataToSend s (some [0x02, 0x00, getBufferStatus s semAvail, 0x00]) 4).2
        else s
      else s
  else s

/-- `SPISlaveHandler::ensureTransactionQueued`
(SPISlaveHandler.cpp:393-418): when the completion callback has flagged
that a fresh descriptor is needed, rebuild and submit one (oracle
`queueOk`); the flag is cleared only on successful submission. -/
def ensureTransactionQueued (s : SPIState) (queueOk : Bool) : Bool × SPIState :=
  if !s.initialized then (false, s)
  else if s.needsNewTransaction then
    if queueOk then
      (true, { s with hwQueuedCount := s.hwQueuedCount + 1, needsNewTransaction := false })
    else (false, s)
  else (false, s)

/-- `SPISlaveHandler::resetSPIInterface` (SPISlaveHandler.cpp:462-509):
bump the recovery counter, free the driver when initialized, re-run
`init` with the stored pins and mode, and on success clear transaction
activity, zero both persistent buffers, drain the receive queue (when
the mutex can be taken within 1000 ms) and stage the
`{0xAA, 0x55, 0xAA, 0x55}` beacon. -/
def resetSPIInterface (s : SPIState) (hwInitOk : Bool) (queueOk : Nat → Bool)
    (semAvail : Bool) (now : Nat) : Bool × SPIState :=
  let s0 := { s with recoveryAttempts := (s.recoveryAttempts + 1) % U32 }
  let s1 := if s0.initialized then { s0 with driverStarted := false, initialized := false }
            else s0
  match init s1 (Int.ofNat s1.sckPin) (Int.ofNat s1.misoPin) (Int.ofNat s1.mosiPin)
      (Int.ofNat s1.csPin) s1.mode hwInitOk queueOk with
  | (false, s2) => (false, s2)
  | (true, s2) =>
    let s3 := { s2 with transactionActive := false, lastTransactionTime := now % U32 }
    let s4 := { s3 with txBuffer := List.replicate s3.bufferSize 0,
                        rxBuffer := List.replicate s3.bufferSize 0,
                        txLength := 0,
                        dataReady := false }
    let s5 := if semAvail then { s4 with receiveQueue := [] } else s4
    (true, (prepareDataToSend s5 (some [0xAA, 0x55, 0xAA, 0x55]) 4).2)

/-- The `unsigned long` subtraction `currentTime - _lastTransactionTime`
(wrap-around arithmetic modulo 2^32). -/
def sub32 (a b : Nat) : Nat :=
  (a % U32 + (U32 - b % U32)) % U32

/-- `SPISlaveHandler::checkAndRecoverFromStalledTransaction`
(SPISlaveHandler.cpp:420-460): the watchdog poll.  The middle C++ `if`
has no `else`, so a long silence with a zero completion count falls
through to the missed-re-queue check; the Lean condition conjoins the
outer and inner guards to preserve that fall-through. -/
def checkAndRecoverFromStalledTransaction (s : SPIState) (now : Nat) (hwInitOk : Bool)
    (queueOk : Nat → Bool) (semAvail : Bool) (resetNow : Nat) (requeueOk : Bool) :
    Bool × SPIState :=
  if !s.initialized then (false, s)
  else
    let timeSince := sub32 (now % U32) s.lastTransactionTime
    if s.transactionActive && decide (s.transactionTimeout < timeSince) then
      resetSPIInterface s hwInitOk queueOk semAvail resetNow
    else if decide (s.transactionTimeout * 2 % U32 < timeSince)
        && (s.initialized && decide (0 < s.transactionCount)) then
      resetSPIInterface s hwInitOk queueOk semAvail resetNow
    else if s.needsNewTransaction then
      (true, (ensureTransactionQueued s requeueOk).2)
    else (false, s)

/-- One step of the pool exercise language of the spec's
`acquire`/`release` property: a `getBuffer` call (with its malloc
oracle) or a `returnBuffer` call on some buffer reference. -/
inductive PoolOp where
  | get (mallocOk : Bool)
  | ret (b : BufRef)
  deriving DecidableEq, Repr

/-- Run a finite sequence of `getBuffer`/`returnBuffer` calls. -/
def runPoolOps (s : SPIState) : List PoolOp → SPIState
  | [] => s
  | PoolOp.get m :: rest => runPoolOps (getBuffer s m).2 rest
  | PoolOp.ret b :: rest => runPoolOps (returnBuffer s b) rest

/-- Every allocated pool entry that is currently free holds only zero
bytes (`getD` supplies the all-zero default for unallocated slots, so
the condition constrains exactly the allocated ones). -/
def poolCleared (size : Nat) (l : List SPIBuffer) : Prop :=
  ∀ buf ∈ l, buf.inUse = false →
    buf.data.getD (List.replicate size 0) = List.replicate size 0

/-- The pool-zeroing invariant of a handler state. -/
def freeBuffersZero (s : SPIState) : Prop :=
  poolCleared s.bufferSize s.bufferPool

/-! ## Helper lemmas -/

/-- The wrap-around subtraction agrees with plain subtraction when the
stored timestamp is a `uint32_t` value and the clock has not wrapped
past it. -/
theorem sub32_elapsed (last now : Nat) (hlast : last < U32) (hle : last ≤ now)
    (hwrap : now < last + U32) : sub32 (now % U32) last = now - last := by
  unfold sub32 U32 at *
  omega

/-- Copying a 4-byte list into a zeroed buffer yields the 4 bytes
followed by zero padding. -/
theorem memcpyInto_replicate_four (sz a b c e : Nat) :
    memcpyInto (List.replicate sz 0) [a, b, c, e] 4
      = [a, b, c, e] ++ List.replicate (sz - 4) 0 := by
  unfold memcpyInto
  simp [List.drop_replicate]

/-- A concrete initialized handler state used to witness several
theorems at explicit inputs. -/
def sampleState : SPIState :=
  { initialState (fun _ => true) with
      initialized := true,
      driverStarted := true,
      receiveQueue := List.replicate 7 { data := [1], length := 1, processed := false } }

/-! ## Claim theorems -/

/-- C4: `prepareDataToSend` returns `false` and leaves the handler state
(including the staged transmit buffer, `_txLength` and `_dataReady`)
exactly unchanged whenever the data pointer is null, the length is zero
or exceeds the configured buffer size, or the handler is not
initialized. -/
theorem prepareDataToSend_rejects (s : SPIState) (txData : Option (List Nat)) (len : Nat)
    (h : s.initialized = false ∨ txData = none ∨ len = 0 ∨ s.bufferSize < len) :
    prepareDataToSend s txData len = (false, s) := by
  unfold prepareDataToSend
  rcases h with h | h | h | h
  · simp [h]
  · subst h
    by_cases hi : s.initialized <;> simp [hi]
  · subst h
    cases txData <;> by_cases hi : s.initialized <;> simp [hi]
  · cases txData <;> by_cases hi : s.initialized <;>
      simp [hi, Nat.not_lt.mpr (Nat.le_of_lt h), h]

/-- Witness for C4 at a concrete input: a null data pointer is
rejected without touching the state. -/
theorem prepareDataToSend_rejects_witness :
    ((sampleState.initialized = false ∨ (none : Option (List Nat)) = none ∨ 3 = 0 ∨
        sampleState.bufferSize < 3)
      ∧ prepareDataToSend sampleState none 3 = (false, sampleState)) :=
  ⟨Or.inr (Or.inl rfl),
   prepareDataToSend_rejects sampleState none 3 (Or.inr (Or.inl rfl))⟩

/-- C9: when the queue mutex is available, `getBufferStatus` returns
exactly `n * 100 / maxQueueSize` (integer division, rounding down) for
every pending count `n ≤ maxQueueSize`. -/
theorem getBufferStatus_formula (s : SPIState) (n : Nat)
    (hn : s.receiveQueue.length = n) (hle : n ≤ maxQueueSize) :
    getBufferStatus s true = n * 100 / maxQueueSize := by
  unfold getBufferStatus pendingReceiveCount maxQueueSize at *
  simp only [if_true, hn]
  omega

/-- Witness for C9 at a concrete input: 7 pending packets report 70. -/
theorem getBufferStatus_formula_witness :
    (sampleState.receiveQueue.length = 7 ∧ 7 ≤ maxQueueSize)
      ∧ getBufferStatus sampleState true = 7 * 100 / maxQueueSize :=
  ⟨⟨by decide, by decide⟩, getBufferStatus_formula sampleState 7 (by decide) (by decide)⟩

/-- C10: when the queue mutex cannot be taken within its 100 ms bound,
`pendingReceiveCount` returns 0 (not an error) and consequently
`getBufferStatus` reports 0, whatever the queue actually holds. -/
theorem pendingReceiveCount_lock_timeout (s : SPIState) :
    pendingReceiveCount s false = 0 ∧ getBufferStatus s false = 0 := by
  unfold getBufferStatus pendingReceiveCount
  simp

/-- C6 counterexample: starting from the freshly constructed
(uninitialized) handler state, when `spi_slave_initialize` succeeds but
the very first `spi_slave_queue_trans` submission fails, `init` returns
`false` — but the hardware driver is left started (`spi_slave_free` is
never called on this path), contradicting the claim that the failed
call leaves the externally observable state unchanged. -/
theorem init_queue_fail_counterexample :
    (init (initialState (fun _ => true)) 12 13 15 14 0 true (fun _ => false)).1 = false
    ∧ (init (initialState (fun _ => true)) 12 13 15 14 0 true
        (fun _ => false)).2.driverStarted = true := by
  constructor <;> rfl

/-- C6 (amended): if `init` is called on an uninitialized handler, the
hardware driver starts, and any of the 3 initial descriptor submissions
fails, then `init` returns `false` and `_initialized` stays `false`,
and the tx buffer, queue and counters are untouched — but the hardware
driver remains started and the pin/mode fields are updated. -/
theorem init_queue_fail (s : SPIState) (sck miso mosi cs : Int) (mode : Nat)
    (queueOk : Nat → Bool) (hninit : s.initialized = false)
    (hfail : ¬(queueOk 0 = true ∧ queueOk 1 = true ∧ queueOk 2 = true)) :
    (init s sck miso mosi cs mode true queueOk).1 = false
    ∧ (init s sck miso mosi cs mode true queueOk).2.initialized = false
    ∧ (init s sck miso mosi cs mode true queueOk).2.driverStarted = true
    ∧ (init s sck miso mosi cs mode true queueOk).2.txBuffer = s.txBuffer
    ∧ (init s sck miso mosi cs mode true queueOk).2.receiveQueue = s.receiveQueue
    ∧ (init s sck miso mosi cs mode true queueOk).2.transactionCount = s.transactionCount := by
  cases h0 : queueOk 0 with
  | false => simp [init, queueLoop, hninit, h0]
  | true =>
    cases h1 : queueOk 1 with
    | false => simp [init, queueLoop, hninit, h0, h1]
    | true =>
      cases h2 : queueOk 2 with
      | false => simp [init, queueLoop, hninit, h0, h1, h2]
      | true => exact absurd ⟨h0, h1, h2⟩ hfail

/-- Witness for C6 (amended) at a concrete input: first submission
fails. -/
theorem init_queue_fail_witness :
    ((initialState (fun _ => true)).initialized = false
      ∧ ¬((fun _ : Nat => false) 0 = true ∧ (fun _ : Nat => false) 1 = true
            ∧ (fun _ : Nat => false) 2 = true))
    ∧ (init (initialState (fun _ => true)) 12 13 15 14 0 true (fun _ => false)).1 = false
    ∧ (init (initialState (fun _ => true)) 12 13 15 14 0 true
        (fun _ => false)).2.initialized = false
    ∧ (init (initialState (fun _ => true)) 12 13 15 14 0 true
        (fun _ => false)).2.driverStarted = true
    ∧ (init (initialState (fun _ => true)) 12 13 15 14 0 true
        (fun _ => false)).2.txBuffer = (initialState (fun _ => true)).txBuffer
    ∧ (init (initialState (fun _ => true)) 12 13 15 14 0 true
        (fun _ => false)).2.receiveQueue = (initialState (fun _ => true)).receiveQueue
    ∧ (init (initialState (fun _ => true)) 12 13 15 14 0 true
        (fun _ => false)).2.transactionCount = (initialState (fun _ => true)).transactionCount :=
  ⟨⟨rfl, by simp⟩,
   init_queue_fail (initialState (fun _ => true)) 12 13 15 14 0 (fun _ => false) rfl (by simp)⟩

/-- The scan loop finds no free buffer when every pool entry is either
in use or unallocated. -/
theorem findFreeBuffer_none (l : List SPIBuffer)
    (h : ∀ buf ∈ l, buf.inUse = true ∨ buf.data = none) :
    findFreeBuffer l = none := by
  induction l with
  | nil => rfl
  | cons head tail ih =>
    unfold findFreeBuffer
    have hhead := h head (by simp)
    have hcond : (!head.inUse && head.data.isSome) = false := by
      rcases hhead with h1 | h1 <;> simp [h1]
    rw [hcond]
    simp [ih fun b hb => h b (by simp [hb])]

/-- A concrete handler state whose pool buffers are all marked in
use, for the C7 counterexample. -/
def fullPoolState : SPIState :=
  { initialState (fun _ => true) with
      bufferPool := List.replicate SPI_BUFFER_POOL_SIZE
        { data := some (List.replicate SPI_BUFFER_SIZE 0), inUse := true } }

/-- C7 counterexample: with every pool buffer marked in use and
`heap_caps_malloc` succeeding, `getBuffer` does not return null — it
itself produces a fallback ad-hoc buffer, contradicting the claim that
the acquire operation returns none and leaves the fallback to the
caller. -/
theorem getBuffer_exhausted_counterexample :
    (getBuffer fullPoolState true).1 = some BufRef.fresh
    ∧ (getBuffer fullPoolState true).1 ≠ none := by
  constructor
  · rfl
  · intro h
    simp [getBuffer, fullPoolState] at h
    revert h
    rw [findFreeBuffer_none]
    · simp
    · intro buf hbuf
      left
      have : buf = { data := some (List.replicate SPI_BUFFER_SIZE 0), inUse := true } := by
        simpa using (List.eq_of_mem_replicate hbuf)
      rw [this]

/-- C7 (amended): when no pool buffer is free, `getBuffer` itself falls
back to an ad-hoc heap allocation: it returns the fallback buffer when
`heap_caps_malloc` succeeds and null only when that allocation fails,
never a pool buffer, and leaves the pool state unchanged. -/
theorem getBuffer_exhausted (s : SPIState) (mallocOk : Bool)
    (hfull : ∀ buf ∈ s.bufferPool, buf.inUse = true ∨ buf.data = none) :
    getBuffer s mallocOk = ((if mallocOk then some BufRef.fresh else none), s) := by
  unfold getBuffer
  rw [findFreeBuffer_none s.bufferPool hfull]
  cases mallocOk <;> rfl

/-- Witness for C7 (amended) at a concrete input. -/
theorem getBuffer_exhausted_witness :
    (∀ buf ∈ fullPoolState.bufferPool, buf.inUse = true ∨ buf.data = none)
    ∧ getBuffer fullPoolState true = (some BufRef.fresh, fullPoolState) := by
  have hfull : ∀ buf ∈ fullPoolState.bufferPool, buf.inUse = true ∨ buf.data = none := by
    intro buf hbuf
    left
    have : buf = { data := some (List.replicate SPI_BUFFER_SIZE 0), inUse := true } := by
      simpa using (List.eq_of_mem_replicate hbuf)
    rw [this]
  exact ⟨hfull, by simpa using getBuffer_exhausted fullPoolState true hfull⟩

/-- C5: in an initialized state with no external receive callback,
handling a packet whose first byte is `PING` (0x01) stages exactly one
outbound payload: the 4 bytes `{PONG, 0x00, getBufferStatus(), 0x00}`
followed by the zero padding of the cleared transmit buffer; nothing
else in the handler state changes. -/
theorem handleReceivedData_ping (s : SPIState) (rest : List Nat) (len : Nat)
    (semAvail : Bool) (hcb : s.receiveCallback = false) (hinit : s.initialized = true)
    (hbuf : 4 ≤ s.bufferSize) (hlen : 0 < len) :
    handleReceivedData s (0x01 :: rest) len semAvail
      = { s with txBuffer := [0x02, 0x00, getBufferStatus s semAvail, 0x00]
                   ++ List.replicate (s.bufferSize - 4) 0,
                 txLength := 4,
                 dataReady := true } := by
  have hnl : ¬(s.bufferSize < 4) := Nat.not_lt.mpr hbuf
  simp [handleReceivedData, prepareDataToSend, hcb, hinit, hlen, hnl,
    memcpyInto_replicate_four]

/-- Witness for C5 at a concrete input: a 2-byte ping packet on the
sample state (7 pending packets, so the status byte is 70). -/
theorem handleReceivedData_ping_witness :
    (sampleState.receiveCallback = false ∧ sampleState.initialized = true
      ∧ 4 ≤ sampleState.bufferSize ∧ 0 < 2)
    ∧ handleReceivedData sampleState [0x01, 0x63] 2 true
        = { sampleState with
              txBuffer := [0x02, 0x00, getBufferStatus sampleState true, 0x00]
                ++ List.replicate (sampleState.bufferSize - 4) 0,
              txLength := 4,
              dataReady := true } :=
  ⟨⟨rfl, rfl, by decide, by decide⟩,
   handleReceivedData_ping sampleState [0x63] 2 true rfl rfl (by decide) (by decide)⟩

/-- `init` on an uninitialized state with a successful driver start and
3 successful descriptor submissions: returns `true`, stores pins and
mode, starts the driver, counts 3 submitted descriptors, and marks the
handler initialized. -/
theorem init_success (s : SPIState) (sck miso mosi cs : Int) (mode : Nat)
    (queueOk : Nat → Bool) (hninit : s.initialized = false)
    (h0 : queueOk 0 = true) (h1 : queueOk 1 = true) (h2 : queueOk 2 = true) :
    init s sck miso mosi cs mode true queueOk
      = (true, { s with
          mode := mode % 256,
          sckPin := toUInt8 (if sck ≠ -1 then sck else SPI_SCK_PIN),
          misoPin := toUInt8 (if miso ≠ -1 then miso else SPI_MISO_PIN),
          mosiPin := toUInt8 (if mosi ≠ -1 then mosi else SPI_MOSI_PIN),
          csPin := toUInt8 (if cs ≠ -1 then cs else SPI_ESP32_SS),
          driverStarted := true,
          hwQueuedCount := s.hwQueuedCount + 1 + 1 + 1,
          initialized := true }) := by
  simp [init, queueLoop, hninit, h0, h1, h2]

/-- C2: when reinitialization succeeds, `resetSPIInterface` increments
the recovery-attempt counter, clears the transaction-active flag, zeroes
both persistent buffers (the transmit buffer then being overwritten by
the staged beacon and its zero padding), removes every packet from the
receive queue, and stages exactly the 4-byte beacon
`{0xAA, 0x55, 0xAA, 0x55}` as the next outbound data (so the final
`_txLength` is 4 with `_dataReady` set). -/
theorem resetSPIInterface_recovery (s : SPIState) (queueOk : Nat → Bool) (now : Nat)
    (hbuf : 4 ≤ s.bufferSize)
    (h0 : queueOk 0 = true) (h1 : queueOk 1 = true) (h2 : queueOk 2 = true) :
    (resetSPIInterface s true queueOk true now).1 = true
    ∧ (resetSPIInterface s true queueOk true now).2.recoveryAttempts
        = (s.recoveryAttempts + 1) % U32
    ∧ (resetSPIInterface s true queueOk true now).2.transactionActive = false
    ∧ (resetSPIInterface s true queueOk true now).2.receiveQueue = []
    ∧ (resetSPIInterface s true queueOk true now).2.rxBuffer
        = List.replicate s.bufferSize 0
    ∧ (resetSPIInterface s true queueOk true now).2.txBuffer
        = [0xAA, 0x55, 0xAA, 0x55] ++ List.replicate (s.bufferSize - 4) 0
    ∧ (resetSPIInterface s true queueOk true now).2.txLength = 4
    ∧ (resetSPIInterface s true queueOk true now).2.dataReady = true := by
  have hnl : ¬(s.bufferSize < 4) := Nat.not_lt.mpr hbuf
  by_cases hi : s.initialized
  · simp [resetSPIInterface, hi, init_success, h0, h1, h2, prepareDataToSend, hnl,
      memcpyInto_replicate_four]
  · simp [resetSPIInterface, hi, init_success, h0, h1, h2, prepareDataToSend, hnl,
      memcpyInto_replicate_four]

/-- Witness for C2 at a concrete input: recovery on the sample state
with an all-success hardware oracle. -/
theorem resetSPIInterface_recovery_witness :
    (4 ≤ sampleState.bufferSize
      ∧ (fun _ : Nat => true) 0 = true ∧ (fun _ : Nat => true) 1 = true
      ∧ (fun _ : Nat => true) 2 = true)
    ∧ (resetSPIInterface sampleState true (fun _ => true) true 555).1 = true
    ∧ (resetSPIInterface sampleState true (fun _ => true) true 555).2.recoveryAttempts
        = (sampleState.recoveryAttempts + 1) % U32
    ∧ (resetSPIInterface sampleState true (fun _ => true) true 555).2.transactionActive
        = false
    ∧ (resetSPIInterface sampleState true (fun _ => true) true 555).2.receiveQueue = []
    ∧ (resetSPIInterface sampleState true (fun _ => true) true 555).2.rxBuffer
        = List.replicate sampleState.bufferSize 0
    ∧ (resetSPIInterface sampleState true (fun _ => true) true 555).2.txBuffer
        = [0xAA, 0x55, 0xAA, 0x55] ++ List.replicate (sampleState.bufferSize - 4) 0
    ∧ (resetSPIInterface sampleState true (fun _ => true) true 555).2.txLength = 4
    ∧ (resetSPIInterface sampleState true (fun _ => true) true 555).2.dataReady = true :=
  ⟨⟨by decide, rfl, rfl, rfl⟩,
   resetSPIInterface_recovery sampleState (fun _ => true) 555 (by decide) rfl rfl rfl⟩

/-- C3: for an initialized handler with no active transfer whose clock
has not wrapped past the last-completion timestamp, once more than
`2 × _transactionTimeout` ms have elapsed since the last completion the
watchdog poll invokes recovery (`resetSPIInterface`) — provided at
least one transfer has ever completed; with a zero completion count the
link-silence condition never triggers recovery (the recovery-attempt
counter stays untouched) no matter how much time has elapsed. -/
theorem watchdog_link_silence (s : SPIState) (now resetNow : Nat) (hwInitOk : Bool)
    (queueOk : Nat → Bool) (semAvail requeueOk : Bool)
    (hinit : s.initialized = true) (hact : s.transactionActive = false)
    (hlast : s.lastTransactionTime < U32)
    (hle : s.lastTransactionTime ≤ now) (hwrap : now < s.lastTransactionTime + U32)
    (hto : s.transactionTimeout * 2 < U32)
    (helapsed : s.transactionTimeout * 2 < now - s.lastTransactionTime) :
    (0 < s.transactionCount →
        checkAndRecoverFromStalledTransaction s now hwInitOk queueOk semAvail resetNow
            requeueOk
          = resetSPIInterface s hwInitOk queueOk semAvail resetNow)
    ∧ (s.transactionCount = 0 →
        (checkAndRecoverFromStalledTransaction s now hwInitOk queueOk semAvail resetNow
            requeueOk).2.recoveryAttempts = s.recoveryAttempts) := by
  have hts : sub32 (now % U32) s.lastTransactionTime = now - s.lastTransactionTime :=
    sub32_elapsed _ _ hlast hle hwrap
  have hmod : s.transactionTimeout * 2 % U32 = s.transactionTimeout * 2 :=
    Nat.mod_eq_of_lt hto
  constructor
  · intro hcount
    simp [checkAndRecoverFromStalledTransaction, hinit, hact, hts, hmod, helapsed, hcount]
  · intro hcount
    by_cases hneed : s.needsNewTransaction = true <;>
      cases requeueOk <;>
        simp [checkAndRecoverFromStalledTransaction, ensureTransactionQueued, hinit, hact,
          hts, hmod, hcount, hneed]

/-- A concrete silent-link state for the C3 witness: last completion at
1000 ms, 5 completed transfers, polled at 8000 ms with the default
3000 ms timeout. -/
def silentState : SPIState :=
  { sampleState with lastTransactionTime := 1000, transactionCount := 5 }

/-- Witness for C3 at a concrete input. -/
theorem watchdog_link_silence_witness :
    (silentState.initialized = true ∧ silentState.transactionActive = false
      ∧ silentState.lastTransactionTime < U32
      ∧ silentState.lastTransactionTime ≤ 8000
      ∧ 8000 < silentState.lastTransactionTime + U32
      ∧ silentState.transactionTimeout * 2 < U32
      ∧ silentState.transactionTimeout * 2 < 8000 - silentState.lastTransactionTime)
    ∧ (0 < silentState.transactionCount →
        checkAndRecoverFromStalledTransaction silentState 8000 true (fun _ => true) true
            8000 true
          = resetSPIInterface silentState true (fun _ => true) true 8000)
    ∧ (silentState.transactionCount = 0 →
        (checkAndRecoverFromStalledTransaction silentState 8000 true (fun _ => true) true
            8000 true).2.recoveryAttempts = silentState.recoveryAttempts) :=
  ⟨⟨rfl, rfl, by decide, by decide, by decide, by decide, by decide⟩,
   watchdog_link_silence silentState 8000 8000 true (fun _ => true) true true rfl rfl
     (by decide) (by decide) (by decide) (by decide) (by decide)⟩

/-- `getBuffer` touches only the buffer pool: the receive queue and
completed-transaction counter of the returned state are unchanged. -/
theorem getBuffer_preserves (s : SPIState) (m : Bool) :
    (getBuffer s m).2.receiveQueue = s.receiveQueue
    ∧ (getBuffer s m).2.transactionCount = s.transactionCount := by
  unfold getBuffer
  cases h : findFreeBuffer s.bufferPool <;> cases m <;> simp

/-- `returnBuffer` touches only the buffer pool. -/
theorem returnBuffer_preserves (s : SPIState) (b : BufRef) :
    (returnBuffer s b).receiveQueue = s.receiveQueue
    ∧ (returnBuffer s b).transactionCount = s.transactionCount := by
  cases b <;> simp [returnBuffer]

/-- A write through a buffer reference touches only the buffer pool. -/
theorem bufWrite_preserves (s : SPIState) (b : BufRef) (n : Nat) :
    (bufWrite s b n).receiveQueue = s.receiveQueue
    ∧ (bufWrite s b n).transactionCount = s.transactionCount := by
  cases b <;> simp [bufWrite]

/-- Component form of `getBuffer_preserves` for a destructured call. -/
theorem getBuffer_eq (s : SPIState) (m : Bool) (o : Option BufRef) (t : SPIState)
    (h : getBuffer s m = (o, t)) :
    t.receiveQueue = s.receiveQueue ∧ t.transactionCount = s.transactionCount := by
  have hp := getBuffer_preserves s m
  rw [h] at hp
  exact hp

/-- C1: a completion-callback event with a non-zero received byte count
preserves the queue bound `maxQueueSize` (10); when the queue is already
at that maximum, nothing is enqueued (the queue is exactly unchanged,
the received bytes are discarded) while the completed-transaction
counter is still incremented by one (in `uint32_t` arithmetic).  This
holds for every handler state and every semaphore/malloc oracle
outcome. -/
theorem onSpiTransaction_flow_control (s : SPIState) (tl : Nat) (semAvail mallocOk : Bool)
    (now : Nat) (hrx : 0 < tl / 8) :
    ((s.receiveQueue.length ≤ maxQueueSize →
        (onSpiTransaction s tl semAvail mallocOk now).receiveQueue.length ≤ maxQueueSize)
    ∧ (s.receiveQueue.length = maxQueueSize →
        (onSpiTransaction s tl semAvail mallocOk now).receiveQueue = s.receiveQueue))
    ∧ (onSpiTransaction s tl semAvail mallocOk now).transactionCount
        = (s.transactionCount + 1) % U32 := by
  unfold onSpiTransaction
  rw [if_neg (Nat.pos_iff_ne_zero.mp hrx)]
  cases semAvail with
  | false =>
    simp only [pendingReceiveCount, maxQueueSize]
    norm_num
    split
    next o sa hg =>
      obtain ⟨hq, hc⟩ := getBuffer_eq _ _ _ _ hg
      simp [hq, hc]
    next o bref sa hg =>
      obtain ⟨hq, hc⟩ := getBuffer_eq _ _ _ _ hg
      have hrq : (returnBuffer (bufWrite sa bref (tl / 8)) bref).receiveQueue
          = sa.receiveQueue := by
        rw [(returnBuffer_preserves _ _).1, (bufWrite_preserves _ _ _).1]
      have hrc : (returnBuffer (bufWrite sa bref (tl / 8)) bref).transactionCount
          = sa.transactionCount := by
        rw [(returnBuffer_preserves _ _).2, (bufWrite_preserves _ _ _).2]
      simp [hrq, hrc, hq, hc]
  | true =>
    simp only [maxQueueSize, pendingReceiveCount] at *
    by_cases hfull : 10 ≤ s.receiveQueue.length
    · simp [hfull]
    · simp only [decide_eq_false hfull, Bool.not_false, if_true]
      split
      next o sa hg =>
        obtain ⟨hq, hc⟩ := getBuffer_eq _ _ _ _ hg
        simp [hq, hc]
      next o bref sa hg =>
        obtain ⟨hq, hc⟩ := getBuffer_eq _ _ _ _ hg
        have hrq : (returnBuffer (bufWrite sa bref (tl / 8)) bref).receiveQueue
            = sa.receiveQueue := by
          rw [(returnBuffer_preserves _ _).1, (bufWrite_preserves _ _ _).1]
        have hrc : (returnBuffer (bufWrite sa bref (tl / 8)) bref).transactionCount
            = sa.transactionCount := by
          rw [(returnBuffer_preserves _ _).2, (bufWrite_preserves _ _ _).2]
        simp [hrq, hrc, hq, hc]
        omega

/-- A concrete handler state whose receive queue is at the configured
maximum, for the C1 witness. -/
def fullQueueState : SPIState :=
  { sampleState with
      receiveQueue := List.replicate 10 { data := [1], length := 1, processed := false } }

/-- Witness for C1 at a concrete input: a 32-bit (4-byte) completion
event on a full queue. -/
theorem onSpiTransaction_flow_control_witness :
    0 < 32 / 8
    ∧ (((fullQueueState.receiveQueue.length ≤ maxQueueSize →
          (onSpiTransaction fullQueueState 32 true true 123).receiveQueue.length
            ≤ maxQueueSize)
      ∧ (fullQueueState.receiveQueue.length = maxQueueSize →
          (onSpiTransaction fullQueueState 32 true true 123).receiveQueue
            = fullQueueState.receiveQueue))
    ∧ (onSpiTransaction fullQueueState 32 true true 123).transactionCount
        = (fullQueueState.transactionCount + 1) % U32) :=
  ⟨by decide, onSpiTransaction_flow_control fullQueueState 32 true true 123 (by decide)⟩

/-- The scan loop's result is a pool entry that was free (and
allocated) at the time of the scan. -/
theorem findFreeBuffer_some (l : List SPIBuffer) (i : Nat)
    (h : findFreeBuffer l = some i) :
    ∃ buf, l.get? i = some buf ∧ buf.inUse = false := by
  induction l generalizing i with
  | nil => simp [findFreeBuffer] at h
  | cons head tail ih =>
    unfold findFreeBuffer at h
    by_cases hc : (!head.inUse && head.data.isSome) = true
    · rw [if_pos hc] at h
      injection h with h
      subst h
      refine ⟨head, rfl, ?_⟩
      simp at hc
      exact hc.1
    · rw [if_neg hc] at h
      cases hf : findFreeBuffer tail with
      | none => rw [hf] at h; simp at h
      | some j =>
        rw [hf] at h
        simp at h
        subst h
        obtain ⟨buf, hget, hfree⟩ := ih j hf
        exact ⟨buf, by simpa [List.get?_cons_succ] using hget, hfree⟩

/-- Every member of a pointwise-modified pool list is either an
original member or the image of one under the modification. -/
theorem mem_poolModify (f : SPIBuffer → SPIBuffer) (i : Nat) (l : List SPIBuffer)
    (buf : SPIBuffer) (h : buf ∈ poolModify f i l) :
    buf ∈ l ∨ ∃ b0, b0 ∈ l ∧ buf = f b0 := by
  induction l generalizing i with
  | nil => simp [poolModify] at h
  | cons head tail ih =>
    cases i with
    | zero =>
      simp only [poolModify] at h
      rcases List.mem_cons.mp h with h | h
      · exact Or.inr ⟨head, List.mem_cons_self _ _, h⟩
      · exact Or.inl (List.mem_cons_of_mem _ h)
    | succ n =>
      simp only [poolModify] at h
      rcases List.mem_cons.mp h with h | h
      · exact Or.inl (h ▸ List.mem_cons_self _ _)
      · rcases ih n h with h1 | ⟨b0, hb0, hfb⟩
        · exact Or.inl (List.mem_cons_of_mem _ h1)
        · exact Or.inr ⟨b0, List.mem_cons_of_mem _ hb0, hfb⟩

/-- Indexing into a pointwise-modified pool list. -/
theorem poolModify_get? (f : SPIBuffer → SPIBuffer) (i j : Nat) (l : List SPIBuffer) :
    (poolModify f i l).get? j = if i = j then (l.get? j).map f else l.get? j := by
  induction l generalizing i j with
  | nil => simp [poolModify]
  | cons head tail ih =>
    cases i with
    | zero => cases j <;> simp [poolModify]
    | succ n =>
      cases j with
      | zero => simp [poolModify]
      | succ j => simpa [poolModify] using ih n j

/-- `getBuffer` preserves the pool-zeroing invariant (it never writes
buffer contents, only marks an entry in use). -/
theorem poolCleared_getBuffer (s : SPIState) (m : Bool)
    (h : freeBuffersZero s) : freeBuffersZero (getBuffer s m).2 := by
  unfold getBuffer
  cases hf : findFreeBuffer s.bufferPool with
  | none => cases m <;> simpa using h
  | some i =>
    unfold freeBuffersZero poolCleared at *
    intro buf hmem hfree
    simp only at hmem ⊢
    rcases mem_poolModify _ _ _ _ hmem with h1 | ⟨b0, hb0, rfl⟩
    · exact h buf h1 hfree
    · simp at hfree

/-- `returnBuffer` preserves the pool-zeroing invariant (a released
pool buffer is zeroed as it is marked free). -/
theorem poolCleared_returnBuffer (s : SPIState) (b : BufRef)
    (h : freeBuffersZero s) : freeBuffersZero (returnBuffer s b) := by
  cases b with
  | fresh => simpa [returnBuffer] using h
  | pool i =>
    unfold returnBuffer freeBuffersZero poolCleared at *
    intro buf hmem hfree
    simp only at hmem ⊢
    rcases mem_poolModify _ _ _ _ hmem with h1 | ⟨b0, hb0, rfl⟩
    · exact h buf h1 hfree
    · cases hd : b0.data <;> simp [hd]

/-- The constructor's pool satisfies the zeroing invariant: every
successfully allocated buffer starts zeroed and free. -/
theorem freeBuffersZero_initialState (allocOk : Nat → Bool) :
    freeBuffersZero (initialState allocOk) := by
  unfold freeBuffersZero poolCleared initialState mkPool
  intro buf hmem hfree
  simp only [List.mem_map, List.mem_range] at hmem
  obtain ⟨i, hi, rfl⟩ := hmem
  by_cases h : allocOk i <;> simp [h]

/-- Any finite sequence of `getBuffer`/`returnBuffer` calls preserves
the pool-zeroing invariant. -/
theorem freeBuffersZero_runPoolOps (s : SPIState) (ops : List PoolOp)
    (h : freeBuffersZero s) : freeBuffersZero (runPoolOps s ops) := by
  induction ops generalizing s with
  | nil => exact h
  | cons op rest ih =>
    cases op with
    | get m => exact ih _ (poolCleared_getBuffer s m h)
    | ret b => exact ih _ (poolCleared_returnBuffer s b h)

/-- C8: (1) `getBuffer` hands out a pool buffer only if its in-use flag
was clear at the moment of the call, so no pool buffer ever gets two
concurrent owners; (2) immediately after `returnBuffer` the released
pool entry is free with all bytes zero; and (3) along every finite
sequence of `getBuffer`/`returnBuffer` calls from the constructor's
initial pool state, every free allocated pool buffer holds only zero
bytes — hence a released buffer stays all-zero until the `getBuffer`
call that hands it out again. -/
theorem pool_ownership_and_zeroing :
    (∀ (s : SPIState) (mallocOk : Bool) (i : Nat),
        (getBuffer s mallocOk).1 = some (BufRef.pool i) →
        ∃ buf, s.bufferPool.get? i = some buf ∧ buf.inUse = false)
    ∧ (∀ (s : SPIState) (i : Nat) (buf : SPIBuffer),
        (returnBuffer s (BufRef.pool i)).bufferPool.get? i = some buf →
        buf.inUse = false
          ∧ buf.data.getD (List.replicate s.bufferSize 0) = List.replicate s.bufferSize 0)
    ∧ (∀ (allocOk : Nat → Bool) (ops : List PoolOp),
        freeBuffersZero (runPoolOps (initialState allocOk) ops)) := by
  refine ⟨?_, ?_, ?_⟩
  · intro s m i h
    unfold getBuffer at h
    cases hf : findFreeBuffer s.bufferPool with
    | none => rw [hf] at h; cases m <;> simp at h
    | some j =>
      rw [hf] at h
      simp at h
      subst h
      exact findFreeBuffer_some _ _ hf
  · intro s i buf h
    have hret : (returnBuffer s (BufRef.pool i)).bufferPool
        = poolModify (fun b0 =>
            { b0 with inUse := false,
                      data := b0.data.map fun _ => List.replicate s.bufferSize 0 })
          i s.bufferPool := rfl
    rw [hret, poolModify_get?, if_pos rfl] at h
    cases hp : s.bufferPool.get? i with
    | none => rw [hp] at h; simp at h
    | some b0 =>
      rw [hp, Option.map_some'] at h
      have hbuf : buf
          = { data := Option.map (fun _ => List.replicate s.bufferSize 0) b0.data,
              inUse := false } := by
        injection h with h
        exact h.symm
      subst hbuf
      exact ⟨rfl, by cases hd : b0.data <;> simp [hd]⟩
  · intro allocOk ops
    exact freeBuffersZero_runPoolOps _ _ (freeBuffersZero_initialState allocOk)

/-- Witness for C8 at concrete inputs: the first acquisition from the
fresh pool, a release into the sample state, and a two-step
acquire/release sequence from the initial state. -/
theorem pool_ownership_and_zeroing_witness :
    (∃ buf, (initialState (fun _ => true)).bufferPool.get? 0 = some buf
        ∧ buf.inUse = false)
    ∧ (({ data := some (List.replicate SPI_BUFFER_SIZE 0), inUse := false }
            : SPIBuffer).inUse = false
        ∧ ({ data := some (List.replicate SPI_BUFFER_SIZE 0), inUse := false }
              : SPIBuffer).data.getD (List.replicate sampleState.bufferSize 0)
            = List.replicate sampleState.bufferSize 0)
    ∧ freeBuffersZero
        (runPoolOps (initialState (fun _ => true))
          [PoolOp.get true, PoolOp.ret (BufRef.pool 0)]) :=
  ⟨pool_ownership_and_zeroing.1 (initialState (fun _ => true)) true 0 rfl,
   pool_ownership_and_zeroing.2.1 sampleState 0
     { data := some (List.replicate SPI_BUFFER_SIZE 0), inUse := false } rfl,
   pool_ownership_and_zeroing.2.2 (fun _ => true)
     [PoolOp.get true, PoolOp.ret (BufRef.pool 0)]⟩

end SPISlave
